import Mathlib

/-!
Shallow embedding of `backend/strategy_api.py`: a process supervisor for a
single external worker process (`/strategy/start`, `/strategy/stop`,
`/strategy/status`, `/health`, `/strategy/reset`) together with the log
tailer (`/strategy/logs`).

Modelling conventions:
* The global `active_process` is a `Slot := Option Nat` holding the pid of
  the at-most-one owned process handle.
* OS state is explicit: a `World` is the list of pids of supervisor-spawned
  worker processes that have not yet exited.  `proc.poll() is None` is
  modelled as membership of the process's pid in the world (`pollAlive`).
  Spontaneous exits (the worker dying on its own, or during the sleeps of
  the stop escalation) are environment inputs: boolean filters that remove
  pids from the world.
* Fallible OS calls (spawning, signalling, reading the log file, the whole
  body of an endpoint) take their outcome as an explicit environment input
  (`Except`/`Option String` for a raised exception's message).
* Building the worker's command line from the request payload is mechanical
  marshaling, out of scope per the spec; it does not influence the slot
  state machine and is elided.
-/

namespace StrategyApi

/-- Pids of supervisor-spawned worker processes that have not yet exited.
Environment steps may remove pids (spontaneous exits); a successful spawn
adds the fresh pid. -/
abbrev World := List Nat

/-- The single worker slot: the global `active_process` of
`backend/strategy_api.py`, holding at most one process handle (its pid). -/
abbrev Slot := Option Nat

/-- Boolean membership of a pid in a pid list. -/
def memNat (p : Nat) : List Nat → Bool
  | [] => false
  | q :: rest => (q == p) || memNat p rest

/-- Liveness probe: `active_process.poll() is None` in the source is `true`
iff the process's pid is still in the world. -/
def pollAlive (world : World) (p : Nat) : Bool := memNat p world

/-- Response of the two start endpoints (`GET`/`POST /strategy/start`). -/
inductive StartResp where
  | alreadyRunning (pid : Nat)
  | started (pid : Nat)
  | spawnFailed (msg : String)
deriving DecidableEq

/-- Result of a start call: response, new slot, new world. -/
structure StartResult where
  resp : StartResp
  slot : Slot
  world : World
deriving DecidableEq

/-- The `try: subprocess.Popen(...); active_process = process` part of both
start endpoints (lines 42-71 and 86-157).  A successful spawn yields a fresh
live pid; an exception anywhere in the `try` block yields the
`"Failed to start strategy"` error and leaves `active_process` as the
cleared value `None`. -/
def spawnWorker (world : World) (spawn : Except String Nat) : StartResult :=
  match spawn with
  | .ok pid => ⟨.started pid, some pid, pid :: world⟩
  | .error e => ⟨.spawnFailed e, none, world⟩

/-- Lines 30-71 (`start_strategy`) and 73-157 (`start_strategy_post`): both
endpoints share the same slot logic.  If the slot is occupied and the
occupant's liveness probe says it has not exited, fail with
`AlreadyRunning(pid)`; if the occupant has exited, clear the slot first and
then spawn. -/
def start_strategy (slot : Slot) (world : World) (spawn : Except String Nat) : StartResult :=
  match slot with
  | some p =>
    if pollAlive world p then ⟨.alreadyRunning p, some p, world⟩
    else spawnWorker world spawn
  | none => spawnWorker world spawn

/-- Response of `GET /strategy/stop`. -/
inductive StopResp where
  | noActive
  | stoppedOk
  | stopFailed (msg : String)
deriving DecidableEq

/-- Signals the stop escalation can attempt, in escalation order. -/
inductive Sig where
  | sigint
  | sigterm
  | sigkill
deriving DecidableEq

/-- Environment of one stop call: whether each OS signalling call raises,
and which processes exit during each sleep of the escalation. -/
structure StopEnv where
  intErr : Option String
  exits1 : Nat → Bool
  termErr : Option String
  exits2 : Nat → Bool
  killErr : Option String

/-- Result of a stop call: response, new slot, new world, and the sequence
of signals that were attempted, in order. -/
structure StopResult where
  resp : StopResp
  slot : Slot
  world : World
  sigs : List Sig

/-- Lines 159-189 (`stop_strategy`): send SIGINT, sleep 2, and if the
process is still alive send SIGTERM, sleep 1, and if still alive SIGKILL;
then clear the slot and report success.  Any exception raised by a
signalling call is caught and reported as `"Failed to stop strategy"`,
with `active_process` left untouched (the clearing assignment on line 181
is only reached after the escalation completes). -/
def stop_strategy (slot : Slot) (world : World) (env : StopEnv) : StopResult :=
  match slot with
  | none => ⟨.noActive, none, world, []⟩
  | some p =>
    match env.intErr with
    | some e => ⟨.stopFailed e, some p, world, [.sigint]⟩
    | none =>
      let w1 := world.filter (fun q => !env.exits1 q)
      if pollAlive w1 p then
        match env.termErr with
        | some e => ⟨.stopFailed e, some p, w1, [.sigint, .sigterm]⟩
        | none =>
          let w2 := w1.filter (fun q => !env.exits2 q)
          if pollAlive w2 p then
            match env.killErr with
            | some e => ⟨.stopFailed e, some p, w2, [.sigint, .sigterm, .sigkill]⟩
            | none => ⟨.stoppedOk, none, w2.filter (fun q => !(q == p)), [.sigint, .sigterm, .sigkill]⟩
          else ⟨.stoppedOk, none, w2, [.sigint, .sigterm]⟩
      else ⟨.stoppedOk, none, w1, [.sigint]⟩

/-- Shape of the attempted-signal sequence of a complete (error-free) stop
escalation, as a function of the two liveness re-checks. -/
def escalationSigs (alive1 alive2 : Bool) : List Sig :=
  .sigint :: (if alive1 then .sigterm :: (if alive2 then [.sigkill] else []) else [])

/-- Response of `GET /strategy/status`. -/
inductive StatusResp where
  | stoppedSt
  | runningSt (pid : Nat)
deriving DecidableEq

/-- Result of a status call: response and new slot (status performs the
lazy cleanup of an exited occupant). -/
structure StatusResult where
  resp : StatusResp
  slot : Slot
deriving DecidableEq

/-- Lines 191-207 (`get_status`): pure read except for the lazy cleanup of
an occupant whose liveness probe shows it has exited. -/
def get_status (slot : Slot) (world : World) : StatusResult :=
  match slot with
  | none => ⟨.stoppedSt, none⟩
  | some p =>
    if pollAlive world p then ⟨.runningSt p, some p⟩
    else ⟨.stoppedSt, none⟩

/-- The `process_info` sub-object of the health response. -/
structure ProcessInfo where
  pid : Option Nat
  running : Bool
deriving DecidableEq

/-- Response of `GET /health`. -/
structure HealthResp where
  status : String
  strategy_running : Bool
  process_info : Option ProcessInfo
deriving DecidableEq

/-- Result of a health call: response and (unchanged) slot. -/
structure HealthResult where
  resp : HealthResp
  slot : Slot
deriving DecidableEq

/-- Lines 209-220 (`health_check`): reads `active_process` and probes
liveness but never assigns the global, so the slot component of the result
is the input slot verbatim. -/
def health_check (slot : Slot) (world : World) : HealthResult :=
  match slot with
  | none => ⟨⟨"healthy", false, none⟩, none⟩
  | some p =>
    ⟨⟨"healthy", pollAlive world p,
      some ⟨if pollAlive world p then some p else none, pollAlive world p⟩⟩, some p⟩

/-- Outcome of running the maintenance script (`reset_strategy.py`) with
the auto-supplied confirmations: the `communicate` call times out, or the
script completes with a return code and captured streams, or an exception
is raised. -/
inductive ResetRun where
  | timedOut
  | completed (returncode : Int) (stdout stderr : String)
  | raisedExc (msg : String)
deriving DecidableEq

/-- Response of `GET /strategy/reset`. -/
inductive ResetResp where
  | blocked
  | scriptMissing
  | resetTimeout
  | resetOk (output : String)
  | resetFailed (stderr : String) (returncode : Int)
  | resetExc (msg : String)
deriving DecidableEq

/-- Result of a reset call: response, slot afterwards, and whether the
maintenance script was actually launched (`ran`). -/
structure ResetResult where
  resp : ResetResp
  slot : Slot
  ran : Bool
deriving DecidableEq

/-- Python `str.strip()`: drop leading and trailing whitespace. -/
def trimChars (s : String) : String :=
  String.mk (((s.data.dropWhile Char.isWhitespace).reverse.dropWhile Char.isWhitespace).reverse)

/-- Lines 239-284: the part of `reset_strategy` after the running-worker
guard — check the script exists, launch it with both confirmations
pre-supplied, and classify the outcome.  `active_process` is never
assigned. -/
def resetGo (slot : Slot) (scriptOnDisk : Bool) (run : ResetRun) : ResetResult :=
  if !scriptOnDisk then ⟨.scriptMissing, slot, false⟩
  else
    match run with
    | .timedOut => ⟨.resetTimeout, slot, true⟩
    | .completed rc out err =>
      if rc == 0 then
        ⟨.resetOk (if out = "" then "Reset completado" else trimChars out), slot, true⟩
      else ⟨.resetFailed (if err = "" then "Error desconocido" else err) rc, slot, true⟩
    | .raisedExc m => ⟨.resetExc m, slot, true⟩

/-- Lines 222-284 (`reset_strategy`): refuse (without any side effect) when
the slot holds a worker whose liveness probe shows it has not exited;
otherwise run the maintenance script.  The slot itself is never
modified. -/
def reset_strategy (slot : Slot) (world : World) (scriptOnDisk : Bool) (run : ResetRun) : ResetResult :=
  match slot with
  | some p =>
    if pollAlive world p then ⟨.blocked, some p, false⟩
    else resetGo slot scriptOnDisk run
  | none => resetGo slot scriptOnDisk run

/-- A structured log record as produced by `get_logs`. -/
structure LogRecord where
  timestamp : String
  level : String
  message : String
deriving DecidableEq

/-- The three-character separator of the log line format. -/
def sepBar : String := " | "

/-- Whether the first list is an initial segment of the second. -/
def isPrefixChars : List Char → List Char → Bool
  | [], _ => true
  | _ :: _, [] => false
  | a :: as, b :: bs => (a == b) && isPrefixChars as bs

/-- Fuel-driven splitter on a character-list separator: scans left to
right, cutting at each leftmost non-overlapping occurrence of `sep`.  Fuel
equal to the input length always suffices, since every step consumes at
least one character. -/
def splitSepGo (sep : List Char) : Nat → List Char → List Char → List (List Char)
  | _, [], acc => [acc.reverse]
  | 0, s, acc => [acc.reverse ++ s]
  | fuel + 1, c :: rest, acc =>
    if isPrefixChars sep (c :: rest) then
      acc.reverse :: splitSepGo sep fuel (List.drop (sep.length - 1) rest) []
    else splitSepGo sep fuel rest (c :: acc)

/-- Split a line on every occurrence of `" | "` (Python `line.split(' | ')`
without a maxsplit bound). -/
def splitFull (line : String) : List String :=
  (splitSepGo sepBar.data line.data.length line.data []).map String.mk

/-- Python `' | ' in line`: the full split produced at least two parts. -/
def hasBar (line : String) : Bool :=
  match splitFull line with
  | _ :: _ :: _ => true
  | _ => false

/-- Join a list of strings with a separator. -/
def joinSep (sep : String) : List String → String
  | [] => ""
  | [a] => a
  | a :: rest => a ++ sep ++ joinSep sep rest

/-- Python `line.split(' | ', 2)`: at most two cuts; the third part is the
raw remainder, i.e. the remaining full-split parts rejoined with the
separator. -/
def pySplit2 (line : String) : List String :=
  match splitFull line with
  | a :: b :: rest =>
    if rest.isEmpty then [a, b] else [a, b, joinSep sepBar rest]
  | parts => parts

/-- Python `str.lower()` (ASCII is all the level tokens need). -/
def lowerChars (s : String) : String :=
  String.mk (s.data.map Char.toLower)

/-- Lines 318-328: the level-token normalisation applied to the
already-lowercased second part of a log line. -/
def mapLevel (level : String) : String :=
  if level ∈ (["info", "debug"] : List String) then "info"
  else if level ∈ (["warn", "warning"] : List String) then "warning"
  else if level ∈ (["err", "error"] : List String) then "error"
  else if level ∈ (["critical"] : List String) then "error"
  else "info"

/-- Lines 309-355: parse one non-blank stripped line.  A line with the
separator and at least three parts of the 2-bounded split yields a
structured record (timestamp and message verbatim, level normalised); in
every other case the whole line becomes an `info` record stamped with the
current wall-clock time `now`. -/
def parseLogLine (now line : String) : LogRecord :=
  if hasBar line then
    match pySplit2 line with
    | [t, lvl, msg] => ⟨t, mapLevel (lowerChars lvl), msg⟩
    | _ => ⟨now, "info", line⟩
  else ⟨now, "info", line⟩

/-- Lines 306-355: strip each kept line; blank lines produce no record at
all, every other line is parsed by `parseLogLine`. -/
def linesToRecords (now : String) (ls : List String) : List LogRecord :=
  ls.filterMap (fun raw =>
    let line := trimChars raw
    if line = "" then none else some (parseLogLine now line))

/-- Python `l[i:]` on a string list, including negative-index semantics:
a negative start counts from the end, clamped at zero. -/
def pySliceFrom (i : Int) (l : List String) : List String :=
  if 0 ≤ i then l.drop i.toNat
  else l.drop ((l.length : Int) + i).toNat

/-- Line 304: `lines[-limit:] if len(lines) > limit else lines`. -/
def recentLines (limit : Int) (lines : List String) : List String :=
  if (lines.length : Int) > limit then pySliceFrom (-limit) lines else lines

/-- The file-derived portion of a `get_logs` result: the records parsed
from the kept suffix of the log file. -/
def fileRecords (limit : Int) (now : String) (lines : List String) : List LogRecord :=
  linesToRecords now (recentLines limit lines)

/-- The condition `active_process is not None and active_process.poll() is
None` of line 365. -/
def workerAlive (slot : Slot) (world : World) : Bool :=
  match slot with
  | some p => pollAlive world p
  | none => false

/-- Lines 367-383: the placeholder records synthesized when a worker is
alive but the log file yielded nothing. -/
def runningLogs (now : String) (pid : Nat) : List LogRecord :=
  [⟨now, "success", "� Algorithm ejecutándose (PID: " ++ toString pid ++ ")"⟩,
   ⟨now, "info", "🧮 Analizando mercados con algoritmos educacionales..."⟩,
   ⟨now, "info", "📈 Monitoreando oportunidades educacionales de trading..."⟩]

/-- Lines 386-402: the placeholder records synthesized when no worker is
alive and the log file yielded nothing. -/
def idleLogs (now : String) : List LogRecord :=
  [⟨now, "info", "� Sistema Educacional InverseNeural Lab listo para iniciar"⟩,
   ⟨now, "info", "⚙️ Configure los parámetros y presione \x27Activar Algoritmo\x27"⟩,
   ⟨now, "success", "✅ Plataforma educacional inicializada correctamente"⟩]

/-- Lines 364-404: choice of synthesized placeholder batch. -/
def placeholderLogs (now : String) (slot : Slot) (world : World) : List LogRecord :=
  match slot with
  | some p => if pollAlive world p then runningLogs now p else idleLogs now
  | none => idleLogs now

/-- Environment of one `get_logs` call: the log file's contents (`none`
when the file does not exist), whether reading an existing file raises,
an unexpected exception anywhere else in the body, and the current
wall-clock timestamp `time.strftime("%Y-%m-%dT%H:%M:%S")`. -/
structure LogsEnv where
  fileLines : Option (List String)
  readErr : Option String
  unexpected : Option String
  now : String
deriving DecidableEq

/-- Lines 293-404, the body inside the top-level `try`: read and parse the
log file when it exists and is readable (a read failure is absorbed by the
inner handler at lines 361-362 and leaves the parsed batch empty); return
the file-derived records when there are any, otherwise the synthesized
placeholders.  An unexpected exception escapes as `.error`. -/
def get_logs_body (limit : Int) (env : LogsEnv) (slot : Slot) (world : World) :
    Except String (List LogRecord) :=
  match env.unexpected with
  | some e => .error e
  | none =>
    let fromFile : List LogRecord :=
      match env.fileLines, env.readErr with
      | some lines, none => fileRecords limit env.now lines
      | _, _ => []
    if fromFile = [] then .ok (placeholderLogs env.now slot world)
    else .ok fromFile

/-- Lines 286-415 (`get_logs`): the top-level `except` converts any escaped
exception into a single `error`-level record, so the endpoint always
returns a plain record list. -/
def get_logs (limit : Int) (env : LogsEnv) (slot : Slot) (world : World) : List LogRecord :=
  match get_logs_body limit env slot world with
  | .ok logs => logs
  | .error e => [⟨env.now, "error", "❌ Error obteniendo logs: " ++ e⟩]

/-- Modelled from the spec: the claim's level mapping, applied
case-insensitively to the raw level token — `{info, debug} → info`,
`{warn, warning} → warning`, `{err, error, critical} → error`, anything
else `info`.  Stated separately from the source's `mapLevel` so the two
can be compared. -/
def claimLevel (lvl : String) : String :=
  if lowerChars lvl ∈ (["info", "debug"] : List String) then "info"
  else if lowerChars lvl ∈ (["warn", "warning"] : List String) then "warning"
  else if lowerChars lvl ∈ (["err", "error", "critical"] : List String) then "error"
  else "info"

/-- One public operation together with its environment inputs. -/
inductive Op where
  | opStart (spawn : Except String Nat)
  | opStop (env : StopEnv)
  | opStatus
  | opHealth
  | opReset (scriptOnDisk : Bool) (run : ResetRun)
  | opLogs (limit : Int) (env : LogsEnv)

/-- Effect of one operation on the supervisor state.  `get_logs` and
`health_check` read the slot but never assign it; `reset_strategy` never
assigns it either. -/
def stepOp (slot : Slot) (world : World) : Op → Slot × World
  | .opStart spawn =>
    let r := start_strategy slot world spawn
    (r.slot, r.world)
  | .opStop env =>
    let r := stop_strategy slot world env
    (r.slot, r.world)
  | .opStatus => ((get_status slot world).slot, world)
  | .opHealth => ((health_check slot world).slot, world)
  | .opReset sd run => ((reset_strategy slot world sd run).slot, world)
  | .opLogs _ _ => (slot, world)

/-- Run a sequence of operations; before each one an arbitrary set of
worker processes may spontaneously exit (the environment's exit filter). -/
def runOps : Slot → World → List ((Nat → Bool) × Op) → Slot × World
  | slot, world, [] => (slot, world)
  | slot, world, (ex, op) :: rest =>
    let w := world.filter (fun q => !ex q)
    let s := stepOp slot w op
    runOps s.1 s.2 rest

/-- The at-most-one invariant: at most one spawned worker process is still
live, and any live spawned worker is the one the slot owns. -/
def SlotInv (slot : Slot) (world : World) : Prop :=
  world.length ≤ 1 ∧ ∀ p ∈ world, slot = some p

/-! ## Helper lemmas -/

theorem memNat_iff (p : Nat) (l : List Nat) : memNat p l = true ↔ p ∈ l := by
  induction l with
  | nil => simp [memNat]
  | cons q rest ih =>
    simp only [memNat, Bool.or_eq_true, beq_iff_eq, ih, List.mem_cons]
    constructor
    · rintro (h | h)
      · exact Or.inl h.symm
      · exact Or.inr h
    · rintro (h | h)
      · exact Or.inl h.symm
      · exact Or.inr h

theorem pollAlive_iff (world : World) (p : Nat) : pollAlive world p = true ↔ p ∈ world :=
  memNat_iff p world

theorem pollAlive_false_iff (world : World) (p : Nat) :
    pollAlive world p = false ↔ p ∉ world := by
  rw [← Bool.not_eq_true, not_iff_not]
  exact pollAlive_iff world p

theorem slotInv_nil (slot : Slot) : SlotInv slot [] :=
  ⟨by simp, by simp⟩

theorem slotInv_filter {slot : Slot} {world : World} (f : Nat → Bool)
    (h : SlotInv slot world) : SlotInv slot (world.filter f) :=
  ⟨le_trans (List.length_filter_le _ _) h.1,
   fun p hp => h.2 p (List.mem_of_mem_filter hp)⟩

theorem slotInv_none_nil {world : World} (h : SlotInv none world) : world = [] := by
  cases world with
  | nil => rfl
  | cons q w => exact absurd (h.2 q (List.mem_cons_self q w)) (by simp)

theorem slotInv_dead_nil {world : World} {p : Nat} (h : SlotInv (some p) world)
    (hd : pollAlive world p = false) : world = [] := by
  cases world with
  | nil => rfl
  | cons q w =>
    exfalso
    have hq : p = q := by
      have := h.2 q (List.mem_cons_self q w)
      exact Option.some.inj this
    rw [pollAlive_false_iff] at hd
    exact hd (hq ▸ List.mem_cons_self q w)

theorem resetGo_slot (slot : Slot) (sd : Bool) (run : ResetRun) :
    (resetGo slot sd run).slot = slot := by
  unfold resetGo
  split
  · rfl
  · cases run with
    | timedOut => rfl
    | completed rc out err =>
      simp only
      split <;> rfl
    | raisedExc m => rfl

theorem reset_strategy_slot (slot : Slot) (world : World) (sd : Bool) (run : ResetRun) :
    (reset_strategy slot world sd run).slot = slot := by
  cases slot with
  | none => exact resetGo_slot none sd run
  | some p =>
    unfold reset_strategy
    by_cases h : pollAlive world p
    · simp [h]
    · simp only [Bool.not_eq_true] at h
      simp [h, resetGo_slot]

theorem health_check_slot (slot : Slot) (world : World) :
    (health_check slot world).slot = slot := by
  cases slot <;> rfl

theorem mapLevel_lower_eq_claimLevel (lvl : String) :
    mapLevel (lowerChars lvl) = claimLevel lvl := by
  unfold mapLevel claimLevel
  split_ifs with h1 h2 h3 h4 h5 h6 h7 <;> simp_all [List.mem_cons]

theorem placeholderLogs_length (now : String) (slot : Slot) (world : World) :
    (placeholderLogs now slot world).length = 3 := by
  unfold placeholderLogs
  cases slot with
  | none => rfl
  | some p => cases h : pollAlive world p <;> simp [h, runningLogs, idleLogs]

theorem placeholderLogs_levels (now : String) (slot : Slot) (world : World) :
    (placeholderLogs now slot world).map LogRecord.level =
      (if workerAlive slot world then ["success", "info", "info"]
       else ["info", "info", "success"]) := by
  unfold placeholderLogs workerAlive
  cases slot with
  | none => rfl
  | some p => cases h : pollAlive world p <;> simp [h, runningLogs, idleLogs]

theorem placeholderLogs_timestamps (now : String) (slot : Slot) (world : World) :
    (placeholderLogs now slot world).map LogRecord.timestamp = [now, now, now] := by
  unfold placeholderLogs
  cases slot with
  | none => rfl
  | some p => cases h : pollAlive world p <;> simp [h, runningLogs, idleLogs]

/-! ## Claim theorems -/

/-- Claim C6: a kept log line containing the separator whose 2-bounded
split yields three parts is parsed into a record with the first part as
timestamp verbatim, the third part as message verbatim, and the level
obtained by the case-insensitive mapping info/debug to info, warn/warning
to warning, err/error/critical to error, anything else to info; if the
separator is absent or the split yields fewer than three parts, the result
is a single info record whose message is the line itself and whose
timestamp is the current wall-clock time. -/
theorem claim6_log_line_parsing (now line : String) :
    (∀ t lvl msg, pySplit2 line = [t, lvl, msg] →
        parseLogLine now line = ⟨t, claimLevel lvl, msg⟩) ∧
    ((pySplit2 line).length < 3 → parseLogLine now line = ⟨now, "info", line⟩) := by
  constructor
  · intro t lvl msg h
    have hbar : hasBar line = true := by
      unfold pySplit2 at h
      unfold hasBar
      cases hsf : splitFull line with
      | nil => rw [hsf] at h; simp at h
      | cons a rest =>
        cases rest with
        | nil => rw [hsf] at h; simp at h
        | cons b rest2 => rfl
    unfold parseLogLine
    rw [hbar, if_pos rfl, h]
    simp only
    rw [mapLevel_lower_eq_claimLevel]
  · intro hlen
    unfold parseLogLine
    cases hb : hasBar line with
    | false => simp
    | true =>
      unfold hasBar at hb
      cases hsf : splitFull line with
      | nil => rw [hsf] at hb; simp at hb
      | cons a rest =>
        cases rest with
        | nil => rw [hsf] at hb; simp at hb
        | cons b rest2 =>
          cases hre : rest2.isEmpty with
          | true =>
            have hp : pySplit2 line = [a, b] := by
              unfold pySplit2
              rw [hsf]
              simp [hre]
            rw [hp]
            simp
          | false =>
            exfalso
            have hp : pySplit2 line = [a, b, joinSep sepBar rest2] := by
              unfold pySplit2
              rw [hsf]
              simp [hre]
            rw [hp] at hlen
            simp at hlen

/-- Claim C6 witness: a well-formed line and a garbage line, evaluated
concretely. -/
theorem claim6_log_line_parsing_witness :
    parseLogLine "T" "2024-01-01T00:00:00 | INFO | hello" =
      ⟨"2024-01-01T00:00:00", claimLevel "INFO", "hello"⟩ ∧
    parseLogLine "T" "garbage line" = ⟨"T", "info", "garbage line"⟩ :=
  ⟨(claim6_log_line_parsing "T" "2024-01-01T00:00:00 | INFO | hello").1
      "2024-01-01T00:00:00" "INFO" "hello" rfl,
   (claim6_log_line_parsing "T" "garbage line").2 (by decide)⟩

/-- Claim C4 counterexample: the claim quantifies over every integer limit,
but with limit = 0 and a one-line file the code keeps every line (Python
`lines[-0:]` is the whole list), so one file-derived record is returned,
exceeding the limit. -/
theorem claim4_counterexample :
    ¬ ∀ (limit : Int) (now : String) (lines : List String),
        ((fileRecords limit now lines).length : Int) ≤ limit := by
  intro hall
  have h1 := hall 0 "T" ["x"]
  have h2 : (fileRecords 0 "T" ["x"]).length = 1 := rfl
  rw [h2] at h1
  exact absurd h1 (by decide)

/-- Claim C4 (amended): for every positive limit N, the file-derived
portion of `recent_logs(limit=N)` has at most N records, whatever the file
contents. -/
theorem claim4_file_records_bound (limit : Int) (hpos : 1 ≤ limit) (now : String)
    (lines : List String) :
    ((fileRecords limit now lines).length : Int) ≤ limit := by
  have hfm : (fileRecords limit now lines).length ≤ (recentLines limit lines).length := by
    unfold fileRecords linesToRecords
    exact List.length_filterMap_le _ _
  have hr : ((recentLines limit lines).length : Int) ≤ limit := by
    unfold recentLines
    by_cases hlen : (lines.length : Int) > limit
    · rw [if_pos hlen]
      unfold pySliceFrom
      rw [if_neg (by omega), List.length_drop]
      omega
    · rw [if_neg hlen]
      omega
  calc ((fileRecords limit now lines).length : Int)
      ≤ ((recentLines limit lines).length : Int) := by exact_mod_cast hfm
    _ ≤ limit := hr

/-- Claim C4 witness: a two-line file with limit 1. -/
theorem claim4_file_records_bound_witness :
    ((fileRecords 1 "T" ["a", "b"]).length : Int) ≤ 1 :=
  claim4_file_records_bound 1 (by decide) "T" ["a", "b"]

/-- Claim C7: when the log file does not exist, or parsing its kept suffix
yields no records, `get_logs` returns exactly the three synthesized
placeholder records — levels success/info/info when the slot is occupied
by a live worker, info/info/success otherwise, all stamped with the
current wall-clock time. -/
theorem claim7_placeholder_records (limit : Int) (env : LogsEnv) (slot : Slot) (world : World)
    (hu : env.unexpected = none)
    (h : env.fileLines = none ∨
         ∃ lines, env.fileLines = some lines ∧ env.readErr = none ∧
           fileRecords limit env.now lines = []) :
    get_logs limit env slot world = placeholderLogs env.now slot world ∧
    (get_logs limit env slot world).length = 3 ∧
    (get_logs limit env slot world).map LogRecord.level =
      (if workerAlive slot world then ["success", "info", "info"]
       else ["info", "info", "success"]) ∧
    (get_logs limit env slot world).map LogRecord.timestamp = [env.now, env.now, env.now] := by
  have hmain : get_logs limit env slot world = placeholderLogs env.now slot world := by
    rcases h with hf | ⟨lines, hf, hre, hrec⟩
    · simp [get_logs, get_logs_body, hu, hf]
    · simp [get_logs, get_logs_body, hu, hf, hre, hrec]
  refine ⟨hmain, ?_, ?_, ?_⟩
  · rw [hmain]; exact placeholderLogs_length env.now slot world
  · rw [hmain]; exact placeholderLogs_levels env.now slot world
  · rw [hmain]; exact placeholderLogs_timestamps env.now slot world

/-- Claim C7 witness: no log file, empty slot. -/
theorem claim7_placeholder_records_witness :
    get_logs 50 ⟨none, none, none, "T"⟩ none [] = placeholderLogs "T" none [] ∧
    (get_logs 50 ⟨none, none, none, "T"⟩ none []).map LogRecord.level =
      ["info", "info", "success"] := by
  have h := claim7_placeholder_records 50 ⟨none, none, none, "T"⟩ none [] rfl (Or.inl rfl)
  refine ⟨h.1, ?_⟩
  rw [h.2.2.1]
  rfl

/-- Claim C8: `get_logs` never propagates an error — its result type is a
plain record list, any exception escaping the body is converted into a
single-element list holding one error-level record describing the failure,
and the result is never empty. -/
theorem claim8_no_error_propagation (limit : Int) (env : LogsEnv) (slot : Slot) (world : World) :
    (∀ e, get_logs_body limit env slot world = .error e →
        get_logs limit env slot world =
          [⟨env.now, "error", "❌ Error obteniendo logs: " ++ e⟩]) ∧
    1 ≤ (get_logs limit env slot world).length := by
  constructor
  · intro e he
    unfold get_logs
    rw [he]
  · unfold get_logs get_logs_body
    cases hu : env.unexpected with
    | some e => simp
    | none =>
      cases hf : env.fileLines with
      | none => simp [placeholderLogs_length]
      | some lines =>
        cases hre : env.readErr with
        | some e => simp [placeholderLogs_length]
        | none =>
          simp only
          by_cases hrec : fileRecords limit env.now lines = []
          · simp [hrec, placeholderLogs_length]
          · simp only [hrec, if_false, if_neg hrec]
            exact List.length_pos.mpr hrec

/-- Claim C8 witness: an unexpected exception is degraded to one error
record. -/
theorem claim8_no_error_propagation_witness :
    get_logs 50 ⟨none, none, some "boom", "T"⟩ none [] =
      [⟨"T", "error", "❌ Error obteniendo logs: boom"⟩] :=
  (claim8_no_error_propagation 50 ⟨none, none, some "boom", "T"⟩ none []).1 "boom" rfl

/-- Claim C10: a kept file line that is blank after stripping produces no
record at all, so a file whose kept suffix is all blank parses to nothing
and `get_logs` falls through to the three synthesized placeholders. -/
theorem claim10_blank_lines (limit : Int) (env : LogsEnv) (slot : Slot) (world : World)
    (lines : List String)
    (hf : env.fileLines = some lines) (hu : env.unexpected = none) (hr : env.readErr = none)
    (hblank : ∀ x ∈ recentLines limit lines, trimChars x = "") :
    fileRecords limit env.now lines = [] ∧
    get_logs limit env slot world = placeholderLogs env.now slot world := by
  have hempty : fileRecords limit env.now lines = [] := by
    unfold fileRecords linesToRecords
    rw [List.filterMap_eq_nil_iff]
    intro x hx
    simp [hblank x hx]
  exact ⟨hempty, by simp [get_logs, get_logs_body, hu, hf, hr, hempty]⟩

/-- Claim C10 witness: a file of an empty line and a whitespace line. -/
theorem claim10_blank_lines_witness :
    fileRecords 50 "T" ["", "   "] = [] ∧
    get_logs 50 ⟨some ["", "   "], none, none, "T"⟩ none [] = placeholderLogs "T" none [] :=
  claim10_blank_lines 50 ⟨some ["", "   "], none, none, "T"⟩ none [] ["", "   "]
    rfl rfl rfl (by decide)

/-- Claim C2: on a non-empty slot, an error-free stop runs the escalation
in strict order — interrupt, then terminate only if the post-sleep probe
still shows the process alive, then kill only if the second probe still
shows it alive — clears the slot and reports success; and if the
interrupt, terminate or kill call raises, stop returns that StopFailed
error and leaves the slot unmodified (in general, every StopFailed
response leaves the slot unmodified). -/
theorem claim2_stop_escalation (slot : Slot) (world : World) (env : StopEnv) (p : Nat)
    (hs : slot = some p) :
    (env.intErr = none → env.termErr = none → env.killErr = none →
      (stop_strategy slot world env).resp = .stoppedOk ∧
      (stop_strategy slot world env).slot = none ∧
      (stop_strategy slot world env).sigs =
        escalationSigs (pollAlive (world.filter fun q => !env.exits1 q) p)
          (pollAlive ((world.filter fun q => !env.exits1 q).filter fun q => !env.exits2 q) p)) ∧
    (∀ e, env.intErr = some e →
      (stop_strategy slot world env).resp = .stopFailed e ∧
      (stop_strategy slot world env).slot = slot) ∧
    (∀ e, env.intErr = none → env.termErr = some e →
      pollAlive (world.filter fun q => !env.exits1 q) p = true →
      (stop_strategy slot world env).resp = .stopFailed e ∧
      (stop_strategy slot world env).slot = slot) ∧
    (∀ e, env.intErr = none → env.termErr = none → env.killErr = some e →
      pollAlive (world.filter fun q => !env.exits1 q) p = true →
      pollAlive ((world.filter fun q => !env.exits1 q).filter fun q => !env.exits2 q) p = true →
      (stop_strategy slot world env).resp = .stopFailed e ∧
      (stop_strategy slot world env).slot = slot) ∧
    (∀ e, (stop_strategy slot world env).resp = .stopFailed e →
      (stop_strategy slot world env).slot = slot) := by
  subst hs
  refine ⟨?_, ?_, ?_, ?_, ?_⟩
  · intro h1 h2 h3
    unfold stop_strategy escalationSigs
    rw [h1]
    simp only
    cases ha1 : pollAlive (world.filter fun q => !env.exits1 q) p with
    | false => simp [ha1]
    | true =>
      rw [h2]
      simp only [ha1, if_true]
      cases ha2 : pollAlive
          ((world.filter fun q => !env.exits1 q).filter fun q => !env.exits2 q) p with
      | false => simp [ha2]
      | true => rw [h3]; simp [ha2]
  · intro e h1
    unfold stop_strategy
    rw [h1]
    exact ⟨rfl, rfl⟩
  · intro e h1 h2 ha1
    unfold stop_strategy
    rw [h1]
    simp only
    rw [if_pos ha1, h2]
    exact ⟨rfl, rfl⟩
  · intro e h1 h2 h3 ha1 ha2
    unfold stop_strategy
    rw [h1]
    simp only
    rw [if_pos ha1, h2]
    simp only
    rw [if_pos ha2, h3]
    exact ⟨rfl, rfl⟩
  · intro e he
    unfold stop_strategy at he ⊢
    cases h1 : env.intErr with
    | some e1 => simp [h1]
    | none =>
      rw [h1] at he
      simp only at he ⊢
      cases ha1 : pollAlive (world.filter fun q => !env.exits1 q) p with
      | false => rw [ha1] at he; simp at he
      | true =>
        rw [ha1] at he
        simp only [if_true] at he ⊢
        cases h2 : env.termErr with
        | some e2 => simp [h2]
        | none =>
          rw [h2] at he
          simp only at he ⊢
          cases ha2 : pollAlive
              ((world.filter fun q => !env.exits1 q).filter fun q => !env.exits2 q) p with
          | false => rw [ha2] at he; simp at he
          | true =>
            rw [ha2] at he
            simp only [if_true] at he ⊢
            cases h3 : env.killErr with
            | some e3 => simp [h3]
            | none => rw [h3] at he; simp at he

/-- Claim C2 witness: error-free, a worker (pid 3) that survives the
interrupt but dies during the second sleep receives interrupt and
terminate and the slot is cleared; a raising interrupt, a raising
terminate on a surviving worker, and a raising kill on a worker that
survives both sleeps each produce that StopFailed error with the slot
still occupied. -/
theorem claim2_stop_escalation_witness :
    ((stop_strategy (some 3) [3] ⟨none, fun _ => false, none, fun _ => true, none⟩).resp =
        .stoppedOk ∧
      (stop_strategy (some 3) [3] ⟨none, fun _ => false, none, fun _ => true, none⟩).slot =
        none ∧
      (stop_strategy (some 3) [3] ⟨none, fun _ => false, none, fun _ => true, none⟩).sigs =
        [.sigint, .sigterm]) ∧
    ((stop_strategy (some 3) [3] ⟨some "ei", fun _ => false, none, fun _ => false, none⟩).resp =
        .stopFailed "ei" ∧
      (stop_strategy (some 3) [3] ⟨some "ei", fun _ => false, none, fun _ => false, none⟩).slot =
        some 3) ∧
    ((stop_strategy (some 3) [3] ⟨none, fun _ => false, some "et", fun _ => false, none⟩).resp =
        .stopFailed "et" ∧
      (stop_strategy (some 3) [3] ⟨none, fun _ => false, some "et", fun _ => false, none⟩).slot =
        some 3) ∧
    ((stop_strategy (some 3) [3] ⟨none, fun _ => false, none, fun _ => false, some "ek"⟩).resp =
        .stopFailed "ek" ∧
      (stop_strategy (some 3) [3] ⟨none, fun _ => false, none, fun _ => false, some "ek"⟩).slot =
        some 3) := by
  have h := (claim2_stop_escalation (some 3) [3]
    ⟨none, fun _ => false, none, fun _ => true, none⟩ 3 rfl).1 rfl rfl rfl
  have hi := (claim2_stop_escalation (some 3) [3]
    ⟨some "ei", fun _ => false, none, fun _ => false, none⟩ 3 rfl).2.1 "ei" rfl
  have ht := (claim2_stop_escalation (some 3) [3]
    ⟨none, fun _ => false, some "et", fun _ => false, none⟩ 3 rfl).2.2.1 "et" rfl rfl rfl
  have hk := (claim2_stop_escalation (some 3) [3]
    ⟨none, fun _ => false, none, fun _ => false, some "ek"⟩ 3 rfl).2.2.2.1 "ek"
    rfl rfl rfl rfl rfl
  exact ⟨⟨h.1, h.2.1, by rw [h.2.2]; rfl⟩, hi, ht, hk⟩

/-- Claim C3: when the slot holds a worker whose liveness probe shows it
has not exited, start fails with AlreadyRunning carrying that worker's
pid, spawns nothing and leaves slot and process set untouched; when the
probe shows the occupant exited, start behaves exactly as from a cleared
slot (lazy cleanup, then spawn). -/
theorem claim3_start_guard (slot : Slot) (world : World) (spawn : Except String Nat)
    (p : Nat) (hs : slot = some p) :
    (pollAlive world p = true →
      start_strategy slot world spawn = ⟨.alreadyRunning p, some p, world⟩) ∧
    (pollAlive world p = false →
      start_strategy slot world spawn = start_strategy none world spawn) := by
  subst hs
  constructor
  · intro h
    simp [start_strategy, h]
  · intro h
    simp [start_strategy, h]

/-- Claim C3 witness: an alive occupant blocks start; an exited occupant
makes start behave as from an empty slot. -/
theorem claim3_start_guard_witness :
    start_strategy (some 4) [4] (.ok 9) = ⟨.alreadyRunning 4, some 4, [4]⟩ ∧
    start_strategy (some 4) [] (.ok 9) = start_strategy none [] (.ok 9) :=
  ⟨(claim3_start_guard (some 4) [4] (.ok 9) 4 rfl).1 rfl,
   (claim3_start_guard (some 4) [] (.ok 9) 4 rfl).2 rfl⟩

/-- Claim C5 counterexample: the claim says every non-empty slot makes
reset fail with ResetBlocked and launch nothing, but a slot occupied by an
exited worker (pid 5, empty world) proceeds: the maintenance script runs
and the response is success, not blocked. -/
theorem claim5_counterexample :
    (reset_strategy (some 5) [] true (.completed 0 "done" "")).resp ≠ .blocked ∧
    (reset_strategy (some 5) [] true (.completed 0 "done" "")).ran = true := by
  decide

/-- Claim C5 (amended): reset fails with ResetBlocked — launching nothing —
exactly when the slot holds a worker whose liveness probe shows it has not
exited (a non-empty slot whose occupant has exited proceeds instead), and
reset never modifies the WorkerSlot state. -/
theorem claim5_reset_blocked (slot : Slot) (world : World) (sd : Bool) (run : ResetRun)
    (p : Nat) (hs : slot = some p) (halive : pollAlive world p = true) :
    reset_strategy slot world sd run = ⟨.blocked, slot, false⟩ ∧
    (∀ (s2 : Slot) (w2 : World) (sd2 : Bool) (r2 : ResetRun),
        (reset_strategy s2 w2 sd2 r2).slot = s2) := by
  subst hs
  refine ⟨by simp [reset_strategy, halive], ?_⟩
  intro s2 w2 sd2 r2
  exact reset_strategy_slot s2 w2 sd2 r2

/-- Claim C5 witness: a live occupant blocks reset without launching the
script. -/
theorem claim5_reset_blocked_witness :
    reset_strategy (some 5) [5] true (.completed 0 "" "") =
      ⟨.blocked, some 5, false⟩ :=
  (claim5_reset_blocked (some 5) [5] true (.completed 0 "" "") 5 rfl rfl).1

/-- Claim C9: health never mutates the WorkerSlot — even when the probe
shows the occupant has exited it reports strategy_running false with no
pid yet leaves the slot occupied, unlike status, which clears the slot at
the same observation. -/
theorem claim9_health_frame (slot : Slot) (world : World) :
    (health_check slot world).slot = slot ∧
    (∀ p, slot = some p → pollAlive world p = false →
      (health_check slot world).resp.strategy_running = false ∧
      (health_check slot world).resp.process_info = some ⟨none, false⟩ ∧
      (get_status slot world).slot = none) := by
  refine ⟨health_check_slot slot world, ?_⟩
  intro p hs hd
  subst hs
  simp [health_check, get_status, hd]

/-- Claim C9 witness: slot occupied by an exited worker (pid 7). -/
theorem claim9_health_frame_witness :
    (health_check (some 7) []).slot = some 7 ∧
    (health_check (some 7) []).resp.strategy_running = false ∧
    (get_status (some 7) []).slot = none := by
  have h := claim9_health_frame (some 7) []
  have h2 := h.2 7 rfl rfl
  exact ⟨h.1, h2.1, h2.2.2⟩

theorem spawnWorker_inv (spawn : Except String Nat) :
    SlotInv (spawnWorker [] spawn).slot (spawnWorker [] spawn).world := by
  cases spawn with
  | ok pid =>
    refine ⟨by simp [spawnWorker], ?_⟩
    intro p hp
    simp only [spawnWorker, List.mem_cons, List.not_mem_nil, or_false] at hp
    simp [spawnWorker, hp]
  | error e => exact slotInv_nil none

theorem stepOp_inv {slot : Slot} {world : World} (op : Op) (h : SlotInv slot world) :
    SlotInv (stepOp slot world op).1 (stepOp slot world op).2 := by
  cases op with
  | opStart spawn =>
    cases hs : slot with
    | none =>
      have hw : world = [] := slotInv_none_nil (hs ▸ h)
      subst hw
      simpa [stepOp, start_strategy] using spawnWorker_inv spawn
    | some p =>
      cases ha : pollAlive world p with
      | true =>
        simp only [stepOp, start_strategy, ha, if_true]
        exact hs ▸ h
      | false =>
        have hw : world = [] := slotInv_dead_nil (hs ▸ h) ha
        subst hw
        simpa [stepOp, start_strategy, ha] using spawnWorker_inv spawn
  | opStop env =>
    cases hs : slot with
    | none =>
      simp only [stepOp, stop_strategy]
      exact ⟨(hs ▸ h).1, fun p hp => absurd ((hs ▸ h).2 p hp) (by simp)⟩
    | some p =>
      have hp : SlotInv (some p) world := hs ▸ h
      cases h1 : env.intErr with
      | some e1 => simpa [stepOp, stop_strategy, h1] using hp
      | none =>
        simp only [stepOp, stop_strategy, h1]
        generalize hg1 : world.filter (fun q => !env.exits1 q) = w1
        have hw1 : SlotInv (some p) w1 := hg1 ▸ slotInv_filter _ hp
        cases ha1 : pollAlive w1 p with
        | false =>
          have hnil := slotInv_dead_nil hw1 ha1
          subst hnil
          simp only [ha1, Bool.false_eq_true, if_false]
          exact slotInv_nil none
        | true =>
          rw [if_pos rfl]
          cases h2 : env.termErr with
          | some e2 => exact hw1
          | none =>
            generalize hg2 : w1.filter (fun q => !env.exits2 q) = w2
            have hw2 : SlotInv (some p) w2 := hg2 ▸ slotInv_filter _ hw1
            cases ha2 : pollAlive w2 p with
            | false =>
              have hnil := slotInv_dead_nil hw2 ha2
              subst hnil
              simp only [ha2, Bool.false_eq_true, if_false]
              exact slotInv_nil none
            | true =>
              rw [if_pos rfl]
              cases h3 : env.killErr with
              | some e3 => exact hw2
              | none =>
                have hkill : w2.filter (fun q => !(q == p)) = [] := by
                  rw [List.eq_nil_iff_forall_not_mem]
                  intro q hq
                  have hmem := List.mem_of_mem_filter hq
                  have hf := List.of_mem_filter hq
                  have hqp : p = q := Option.some.inj (hw2.2 q hmem)
                  subst hqp
                  simp at hf
                simp only [hkill]
                exact slotInv_nil none
  | opStatus =>
    cases hs : slot with
    | none =>
      simp only [stepOp, get_status]
      exact hs ▸ h
    | some p =>
      cases ha : pollAlive world p with
      | true =>
        simp only [stepOp, get_status, ha, if_true]
        exact hs ▸ h
      | false =>
        have hnil := slotInv_dead_nil (hs ▸ h) ha
        simp [stepOp, get_status, ha, hnil, slotInv_nil]
  | opHealth =>
    simpa [stepOp, health_check_slot] using h
  | opReset sd run =>
    simpa [stepOp, reset_strategy_slot] using h
  | opLogs limit env =>
    simpa [stepOp] using h

theorem runOps_inv {slot : Slot} {world : World}
    (ops : List ((Nat → Bool) × Op)) (h : SlotInv slot world) :
    SlotInv (runOps slot world ops).1 (runOps slot world ops).2 := by
  induction ops generalizing slot world with
  | nil => simpa [runOps] using h
  | cons e rest ih =>
    obtain ⟨ex, op⟩ := e
    simp only [runOps]
    exact ih (stepOp_inv op (slotInv_filter _ h))

/-- Claim C1: along every sequence of public operations from the initial
empty supervisor state, at most one spawned worker process is alive at any
time, and any live spawned worker is exactly the one the slot owns — start
can only have spawned when the slot was empty or its occupant had been
observed exited, so the slot never owns two simultaneously-live workers. -/
theorem claim1_at_most_one_live_worker (ops : List ((Nat → Bool) × Op)) :
    (runOps none [] ops).2.length ≤ 1 ∧
    ∀ p ∈ (runOps none [] ops).2, (runOps none [] ops).1 = some p :=
  runOps_inv ops (slotInv_nil none)

end StrategyApi
